import Mathlib

/-!
Verification of the ipswamp-honeypot detection and reporting pipeline.

Each definition is a shallow embedding of a function of the JavaScript
source (file and line references are given in the doc comments).  The
theorems at the end of the file settle the claims about classification
(attack-pattern adapter), report throttling, evidence normalization,
offline spooling, scan detection, per-protocol authentication and the
heartbeat failure counter.
-/

set_option maxRecDepth 4000

/-- JavaScript value, as far as the honeypot's data paths need it:
strings, numbers (the honeypot only ever produces integral counts),
booleans, null, arrays and plain objects. -/
inductive JsVal where
  | null
  | bool (b : Bool)
  | num (n : Int)
  | str (s : String)
  | arr (elems : List JsVal)
  | obj (fields : List (String × JsVal))

mutual

/-- JSON.stringify, restricted to the value shapes of JsVal (string
escaping is not modelled; no honeypot evidence string contains
characters that JSON.stringify would escape differently). -/
def jsStringify : JsVal → String
  | .null => "null"
  | .bool true => "true"
  | .bool false => "false"
  | .num n => toString n
  | .str s => "\"" ++ s ++ "\""
  | .arr es => "[" ++ jsStringifyList es ++ "]"
  | .obj fs => "\x7b" ++ jsStringifyFields fs ++ "\x7d"

/-- Comma-joined stringification of array elements. -/
def jsStringifyList : List JsVal → String
  | [] => ""
  | [x] => jsStringify x
  | x :: xs => jsStringify x ++ "," ++ jsStringifyList xs

/-- Comma-joined stringification of object fields. -/
def jsStringifyFields : List (String × JsVal) → String
  | [] => ""
  | [(k, v)] => "\"" ++ k ++ "\":" ++ jsStringify v
  | (k, v) :: fs => "\"" ++ k ++ "\":" ++ jsStringify v ++ "," ++ jsStringifyFields fs

end

/-- JavaScript truthiness of a JsVal. -/
def jsTruthy : JsVal → Bool
  | .null => false
  | .bool b => b
  | .num n => !(n == 0)
  | .str s => !(s == "")
  | .arr _ => true
  | .obj _ => true

mutual

/-- The String() coercion of JavaScript, as used by Array.prototype.join:
arrays join their elements with commas, objects display as
"[object Object]". -/
def jsToStr : JsVal → String
  | .null => "null"
  | .bool true => "true"
  | .bool false => "false"
  | .num n => toString n
  | .str s => s
  | .arr es => jsToStrList es
  | .obj _ => "[object Object]"

/-- Comma-joined display of array elements (Array.prototype.toString). -/
def jsToStrList : List JsVal → String
  | [] => ""
  | [x] => jsToStr x
  | x :: xs => jsToStr x ++ "," ++ jsToStrList xs

end

/-- Substring test, the .includes method of JavaScript strings. -/
def strIncludes (hay pat : String) : Bool :=
  decide (pat.toList <:+: hay.toList)

/-- The toLowerCase method of JavaScript strings (ASCII range, which is
all the honeypot's internal kind vocabulary uses), written over the
character list so that it evaluates by kernel reduction. -/
def strToLower (s : String) : String :=
  String.mk (s.toList.map Char.toLower)

/-- Attack pattern entry of the ATTACK_PATTERNS table
(src/utils/attack-pattern-adapter.js): canonical lowercase type name,
base score, category.  The free-text description is not modelled. -/
structure AttackPattern where
  type : String
  baseScore : Nat
  category : String
deriving Repr, DecidableEq

/-- The ATTACK_PATTERNS table (src/utils/attack-pattern-adapter.js,
lines 170-364), keyed by the uppercase pattern code. -/
def attackPatterns : List (String × AttackPattern) :=
  [ ("SUSPICIOUS_USER_AGENT", ⟨"suspicious_user_agent", 2, "reconnaissance"⟩)
  , ("DIRECTORY_LISTING_ATTEMPT", ⟨"directory_listing", 3, "reconnaissance"⟩)
  , ("EXCESSIVE_404", ⟨"excessive_404", 3, "reconnaissance"⟩)
  , ("SUSPICIOUS_QUERY_STRING", ⟨"suspicious_query", 4, "reconnaissance"⟩)
  , ("FAKE_CRAWLER", ⟨"fake_crawler", 4, "reconnaissance"⟩)
  , ("RATE_LIMIT_BREACH", ⟨"rate_limit_breach", 6, "abuse"⟩)
  , ("API_ABUSE", ⟨"api_abuse", 7, "abuse"⟩)
  , ("PORT_SCAN", ⟨"port_scan", 8, "reconnaissance"⟩)
  , ("COMMENT_SPAM", ⟨"comment_spam", 8, "abuse"⟩)
  , ("HONEYPOT", ⟨"honeypot", 9, "general"⟩)
  , ("CREDENTIAL_STUFFING", ⟨"credential_stuffing", 11, "authentication"⟩)
  , ("XSS_ATTEMPT", ⟨"xss_attempt", 12, "injection"⟩)
  , ("CSRF_ATTEMPT", ⟨"csrf_attempt", 12, "authentication"⟩)
  , ("PATH_TRAVERSAL", ⟨"path_traversal", 13, "injection"⟩)
  , ("AUTHENTICATION_BREACH", ⟨"auth_breach", 15, "authentication"⟩)
  , ("SQLI_ATTEMPT", ⟨"sqli_attempt", 16, "injection"⟩)
  , ("SSH_BRUTEFORCE", ⟨"ssh_bruteforce", 18, "authentication"⟩)
  , ("HTTP_FLOOD", ⟨"http_flood", 18, "dos"⟩)
  , ("MAIL_SPAM", ⟨"mail_spam", 19, "abuse"⟩)
  , ("COMMAND_INJECTION", ⟨"command_injection", 20, "injection"⟩)
  , ("HTTP_INJECTION", ⟨"http_injection", 22, "injection"⟩)
  , ("DATA_EXFILTRATION", ⟨"data_exfiltration", 25, "intrusion"⟩)
  , ("BOTNET_ACTIVITY", ⟨"botnet_activity", 28, "malware"⟩)
  , ("RANSOMWARE_DISTRIBUTION", ⟨"ransomware", 35, "malware"⟩)
  , ("DDOS_ATTACK", ⟨"ddos", 40, "dos"⟩)
  , ("TARGETED_ATTACK", ⟨"targeted_attack", 45, "intrusion"⟩)
  , ("MANUAL", ⟨"manual", 15, "general"⟩)
  , ("TOR_EXIT_NODE", ⟨"tor_exit", 10, "anonymity"⟩)
  , ("PROXY_ABUSE", ⟨"proxy_abuse", 8, "anonymity"⟩)
  , ("VPN_ABUSE", ⟨"vpn_abuse", 7, "anonymity"⟩) ]

/-- The closed set of uppercase pattern codes (the keys of
ATTACK_PATTERNS). -/
def patternCodes : List String := attackPatterns.map Prod.fst

/-- The ATTACK_TYPE_MAPPING table (src/utils/attack-pattern-adapter.js,
lines 367-441): internal lowercase kinds to uppercase pattern codes,
with the explicit "default" entry. -/
def attackTypeMapping : List (String × String) :=
  [ ("sql_injection", "SQLI_ATTEMPT")
  , ("sql_injection_attempt", "SQLI_ATTEMPT")
  , ("xss_attack", "XSS_ATTEMPT")
  , ("xss", "XSS_ATTEMPT")
  , ("path_traversal", "PATH_TRAVERSAL")
  , ("directory_traversal", "PATH_TRAVERSAL")
  , ("command_injection", "COMMAND_INJECTION")
  , ("os_command_injection", "COMMAND_INJECTION")
  , ("directory_listing", "DIRECTORY_LISTING_ATTEMPT")
  , ("directory_scan", "DIRECTORY_LISTING_ATTEMPT")
  , ("admin_bruteforce", "AUTHENTICATION_BREACH")
  , ("login_attempt", "AUTHENTICATION_BREACH")
  , ("suspicious_request", "SUSPICIOUS_QUERY_STRING")
  , ("strange_query", "SUSPICIOUS_QUERY_STRING")
  , ("bot_request", "FAKE_CRAWLER")
  , ("fake_bot", "FAKE_CRAWLER")
  , ("spam_attempt", "COMMENT_SPAM")
  , ("form_spam", "COMMENT_SPAM")
  , ("rate_limit", "RATE_LIMIT_BREACH")
  , ("too_many_requests", "RATE_LIMIT_BREACH")
  , ("api_abuse", "API_ABUSE")
  , ("management_access", "AUTHENTICATION_BREACH")
  , ("admin_portal_access", "AUTHENTICATION_BREACH")
  , ("ssh_bruteforce", "SSH_BRUTEFORCE")
  , ("ssh_invalid_user", "SSH_BRUTEFORCE")
  , ("ssh_auth_failure", "SSH_BRUTEFORCE")
  , ("ftp_bruteforce", "AUTHENTICATION_BREACH")
  , ("ftp_invalid_user", "AUTHENTICATION_BREACH")
  , ("ftp_auth_failure", "AUTHENTICATION_BREACH")
  , ("smtp_auth_attempt", "AUTHENTICATION_BREACH")
  , ("smtp_spam_attempt", "MAIL_SPAM")
  , ("smtp_relay_attempt", "MAIL_SPAM")
  , ("smtp_bulk_attempt", "MAIL_SPAM")
  , ("smtp_scan", "PORT_SCAN")
  , ("imap_bruteforce", "AUTHENTICATION_BREACH")
  , ("imap_invalid_user", "AUTHENTICATION_BREACH")
  , ("pop3_bruteforce", "AUTHENTICATION_BREACH")
  , ("pop3_invalid_user", "AUTHENTICATION_BREACH")
  , ("mail_auth_failure", "AUTHENTICATION_BREACH")
  , ("mail_overflow_attempt", "BOTNET_ACTIVITY")
  , ("email_harvesting", "SUSPICIOUS_QUERY_STRING")
  , ("mysql_bruteforce", "AUTHENTICATION_BREACH")
  , ("mysql_invalid_user", "AUTHENTICATION_BREACH")
  , ("mysql_auth_failure", "AUTHENTICATION_BREACH")
  , ("mysql_sqli_attempt", "SQLI_ATTEMPT")
  , ("mysql_overflow_attempt", "HTTP_INJECTION")
  , ("mysql_scan", "PORT_SCAN")
  , ("port_scan", "PORT_SCAN")
  , ("port_probe", "PORT_SCAN")
  , ("portscan", "PORT_SCAN")
  , ("honeypot_hit", "HONEYPOT")
  , ("honeypot_access", "HONEYPOT")
  , ("credential_stuffing", "CREDENTIAL_STUFFING")
  , ("password_spray", "CREDENTIAL_STUFFING")
  , ("dos_attempt", "HTTP_FLOOD")
  , ("flood_attack", "HTTP_FLOOD")
  , ("http_flood", "HTTP_FLOOD")
  , ("generic_attack", "MANUAL")
  , ("suspicious_activity", "HONEYPOT")
  , ("default", "HONEYPOT") ]

/-- The mapping lookup with fallback to the "default" entry, i.e. the
expression ATTACK_TYPE_MAPPING[lowerType] || ATTACK_TYPE_MAPPING["default"]. -/
def lookupMapping (lowerType : String) : String :=
  (List.lookup lowerType attackTypeMapping).getD "HONEYPOT"

/-- Truthiness of the evidence field (the attackData.evidence guard in
mapAttackType). -/
def evidenceTruthy : Option JsVal → Bool
  | none => false
  | some v => jsTruthy v

/-- The evidence string inspected by mapAttackType's special case:
arrays are joined with a space, anything else goes through String(). -/
def evidenceJoined : Option JsVal → String
  | none => ""
  | some (.arr es) => String.intercalate " " (es.map jsToStr)
  | some v => jsToStr v

/-- mapAttackType (src/utils/attack-pattern-adapter.js, lines 450-480):
lowercases the internal kind, applies the evidence-aware refinement for
the generic suspicious_request label, otherwise looks the kind up in
ATTACK_TYPE_MAPPING with fallback HONEYPOT. -/
def mapAttackType (internalType : Option String) (evidence : Option JsVal) : String :=
  let lowerType := strToLower (internalType.getD "default")
  if lowerType == "suspicious_request" && evidenceTruthy evidence then
    let ev := strToLower (evidenceJoined evidence)
    if strIncludes ev "union select" || strIncludes ev "information_schema" then
      "SQLI_ATTEMPT"
    else if strIncludes ev "script" && (strIncludes ev "alert" || strIncludes ev "cookie") then
      "XSS_ATTEMPT"
    else if strIncludes ev "../" || strIncludes ev "..%2f" then
      "PATH_TRAVERSAL"
    else
      lookupMapping lowerType
  else
    lookupMapping lowerType

/-- The severityMap of calculateSeverity
(src/utils/attack-pattern-adapter.js, lines 491-503). -/
def severityMap : List (String × Nat) :=
  [ ("SQLI_ATTEMPT", 4)
  , ("XSS_ATTEMPT", 3)
  , ("PATH_TRAVERSAL", 3)
  , ("COMMAND_INJECTION", 5)
  , ("SSH_BRUTEFORCE", 4)
  , ("AUTHENTICATION_BREACH", 3)
  , ("HTTP_FLOOD", 4)
  , ("DDOS_ATTACK", 5)
  , ("PORT_SCAN", 2)
  , ("HONEYPOT", 2) ]

/-- calculateSeverity (src/utils/attack-pattern-adapter.js, lines
489-523): base severity from the map (default 2), +1 capped at 5 when
the evidence array has more than 3 entries, +1 capped at 5 when the
frequency hint exceeds 10. -/
def calculateSeverity (standardizedType : String) (evidence : Option JsVal)
    (frequency : Option Int) : Nat :=
  let base := (List.lookup standardizedType severityMap).getD 2
  let afterEvidence :=
    match evidence with
    | some (.arr es) => if 3 < es.length then min 5 (base + 1) else base
    | _ => base
  match frequency with
  | some f => if 10 < f then min 5 (afterEvidence + 1) else afterEvidence
  | none => afterEvidence

/-- Raw attack data handed to the classification adapter by the protocol
modules (an observation event). -/
structure AttackData where
  ip_address : String
  attack_type : Option String
  description : String
  evidence : Option JsVal
  frequency : Option Int

/-- The metadata block attached by enhanceAttackData. -/
structure EnhancedMetadata where
  original_type : Option String
  baseScore : Nat
deriving Repr, DecidableEq

/-- Enriched canonical attack record produced by enhanceAttackData. -/
structure EnhancedData where
  ip_address : String
  attack_type : String
  description : String
  evidence : Option JsVal
  frequency : Option Int
  severity : Nat
  category : String
  metadata : EnhancedMetadata

/-- ATTACK_PATTERNS lookup with fallback to the HONEYPOT pattern
(the expression ATTACK_PATTERNS[standardizedType] || ATTACK_PATTERNS.HONEYPOT). -/
def getAttackPattern (standardizedType : String) : AttackPattern :=
  (List.lookup standardizedType attackPatterns).getD ⟨"honeypot", 9, "general"⟩

/-- enhanceAttackData (src/utils/attack-pattern-adapter.js, lines
531-560): spreads the original record, replaces attack_type with the
uppercase standardized code, attaches severity, category and metadata
(original kind, base score).  The enhanced_at timestamp and the source
field (overwritten later by the request builder) are not modelled. -/
def enhanceAttackData (a : AttackData) : EnhancedData :=
  let standardizedType := mapAttackType a.attack_type a.evidence
  let severity := calculateSeverity standardizedType a.evidence a.frequency
  let pattern := getAttackPattern standardizedType
  ⟨a.ip_address, standardizedType, a.description, a.evidence, a.frequency,
    severity, pattern.category, ⟨a.attack_type, pattern.baseScore⟩⟩

/-- The closed lowercase taxonomy of spec section 4.2.  This definition
follows the spec's words (the table of canonical kinds), for comparison
with the codes the source actually reports. -/
def specCanonicalKinds : List String :=
  [ "suspicious_user_agent", "directory_listing", "excessive_404"
  , "suspicious_query", "fake_crawler", "rate_limit_breach", "api_abuse"
  , "port_scan", "comment_spam", "honeypot", "credential_stuffing"
  , "xss_attempt", "csrf_attempt", "path_traversal", "auth_breach"
  , "sqli_attempt", "ssh_bruteforce", "http_flood", "mail_spam"
  , "command_injection", "http_injection", "data_exfiltration"
  , "botnet_activity", "ransomware", "ddos", "targeted_attack", "manual"
  , "tor_exit", "proxy_abuse", "vpn_abuse" ]

/-- IP_CACHE_TTL (src/services/api-service.js, line 17): one hour in
milliseconds. -/
def IP_CACHE_TTL : Nat := 3600000

/-- REPORT_TYPES_THROTTLE (src/services/api-service.js, line 19): a
constant, always true. -/
def REPORT_TYPES_THROTTLE : Bool := true

/-- Throttle cache entry for one source address
(src/services/api-service.js, line 13): creation timestamp, set of
attack types already seen this window (modelled as a duplicate-free
list), monotone report count. -/
structure CacheEntry where
  timestamp : Nat
  attack_types : List String
  reported_count : Nat
deriving Repr, DecidableEq

/-- shouldThrottleReport (src/services/api-service.js, lines 304-337):
no entry or an expired entry never throttles; a kind not yet in the
entry's type set never throttles (REPORT_TYPES_THROTTLE is the constant
true); a seen kind throttles when REPORT_UNIQUE_TYPES_ONLY is set, and
otherwise throttles exactly when reported_count has reached the
MAX_REPORTS_PER_IP cap. -/
def shouldThrottleReport (uniqueTypesOnly : Bool) (maxReports : Nat)
    (cache : Option CacheEntry) (now : Nat) (attackType : String) : Bool :=
  match cache with
  | none => false
  | some e =>
    if IP_CACHE_TTL < now - e.timestamp then false
    else if REPORT_TYPES_THROTTLE && !(e.attack_types.contains attackType) then false
    else if uniqueTypesOnly && e.attack_types.contains attackType then true
    else decide (maxReports ≤ e.reported_count)

/-- updateReportCache (src/services/api-service.js, lines 344-371):
missing or expired entries are (re)created with count 1 and a singleton
type set; otherwise the kind is added to the type set and the count
incremented, keeping the original window timestamp. -/
def updateReportCache (cache : Option CacheEntry) (now : Nat)
    (attackType : String) : CacheEntry :=
  match cache with
  | none => ⟨now, [attackType], 1⟩
  | some e =>
    if IP_CACHE_TTL < now - e.timestamp then ⟨now, [attackType], 1⟩
    else
      ⟨e.timestamp,
        if e.attack_types.contains attackType then e.attack_types
        else attackType :: e.attack_types,
        e.reported_count + 1⟩

/-- The throttling part of one reportAttack call
(src/services/api-service.js, lines 160-192): the admission decision,
and the cache update that reportAttack performs in the throttled and in
the admitted branch alike. -/
def reportThrottleStep (uniqueTypesOnly : Bool) (maxReports : Nat)
    (cache : Option CacheEntry) (now : Nat) (attackType : String) :
    Bool × CacheEntry :=
  (!(shouldThrottleReport uniqueTypesOnly maxReports cache now attackType),
   updateReportCache cache now attackType)

/-- Number of admitted (not throttled) calls when a sequence of
(timestamp, canonical kind) events from one source address is fed
through reportAttack's throttle logic. -/
def admittedCount (uniqueTypesOnly : Bool) (maxReports : Nat) :
    Option CacheEntry → List (Nat × String) → Nat
  | _, [] => 0
  | cache, (t, k) :: rest =>
    let s := reportThrottleStep uniqueTypesOnly maxReports cache t k
    (if s.1 then 1 else 0) + admittedCount uniqueTypesOnly maxReports (some s.2) rest

/-- Number of kinds in an event sequence that are novel relative to an
initial set of already-seen kinds (each distinct kind counted once). -/
def newKindCount : List String → List (Nat × String) → Nat
  | _, [] => 0
  | seen, (_, k) :: rest =>
    if seen.contains k then newKindCount seen rest
    else 1 + newKindCount (k :: seen) rest

/-- Parse outcome of JSON.parse as far as the evidence formatter needs
it, supplied as an oracle: some v when JSON.parse succeeds with value v,
none when it throws. -/
def JsonParseFn : Type := String → Option JsVal

/-- The evidence formatting block of reportAttack
(src/services/api-service.js, lines 212-226) and, identically, of
uploadStoredAttacks (lines 482-498): a string is JSON-parsed and
replaced by the parse result when that is an array, otherwise wrapped
as a singleton; a truthy non-string non-array is JSON-stringified and
wrapped; arrays pass through; null and undefined pass through. -/
def normalizeEvidence (parseFn : JsonParseFn) : Option JsVal → Option JsVal
  | none => none
  | some v =>
    match v with
    | .str s =>
      match parseFn s with
      | some (.arr es) => some (.arr es)
      | _ => some (.arr [.str s])
    | .arr es => some (.arr es)
    | w => if jsTruthy w then some (.arr [.str (jsStringify w)]) else some w

/-- Whether a JsVal is a string. -/
def isStrVal : JsVal → Bool
  | .str _ => true
  | _ => false

/-- Whether an evidence value is an array all of whose elements are
strings (the shape the spec requires of the reported evidence field). -/
def evidenceIsStringArray : Option JsVal → Bool
  | some (.arr es) => es.all isStrVal
  | _ => false

/-- A parse oracle agreeing with JSON.parse on the only input it is
applied to in this development: JSON.parse of the text consisting of a
bracketed pair of the numerals one and two yields the two-element
number array. -/
def parseArrOneTwo : JsonParseFn := fun s =>
  if s == "[1,2]" then some (.arr [.num 1, .num 2]) else none

/-- One spooled record of logs/offline_attacks.json
(src/services/api-service.js, storeAttackLocally lines 389-424): the
enriched record, the optional throttled flag, stored_at, pending_upload. -/
structure SpoolEntry where
  data : EnhancedData
  throttled : Bool
  stored_at : Nat
  pending_upload : Bool

/-- The two JSON files under logs/ that the API service touches:
offline_attacks.json (the spool used by storeAttackLocally and
uploadStoredAttacks) and stored_attacks.json (the file deleted by
clearStoredAttacks in the API-service variant).  none models an absent
file. -/
structure LogsState where
  offline_attacks : Option (List SpoolEntry)
  stored_attacks : Option (List SpoolEntry)

/-- storeAttackLocally (src/services/api-service.js, lines 389-424):
append an entry with stored_at and pending_upload=true to
logs/offline_attacks.json, creating the file if absent. -/
def storeAttackLocally (logs : LogsState) (e : EnhancedData)
    (throttledFlag : Bool) (now : Nat) : LogsState :=
  ⟨some ((logs.offline_attacks.getD []) ++ [⟨e, throttledFlag, now, true⟩]),
   logs.stored_attacks⟩

/-- clearStoredAttacks (API-service variant, lines 30-48), run once at
module load: resets the in-memory stored list and the IP cache and
deletes logs/stored_attacks.json if it exists.  It does not touch
logs/offline_attacks.json. -/
def clearStoredAttacks (logs : LogsState) : LogsState :=
  ⟨logs.offline_attacks, none⟩

/-- uploadStoredAttacks (src/services/api-service.js, lines 427-550):
skip entries not pending; try to send each pending entry (sendOk is the
per-entry transport oracle); count successes; rewrite the file with the
entries still pending (pending entries whose send failed). -/
def uploadStoredAttacks (sendOk : SpoolEntry → Bool) (logs : LogsState) :
    Nat × LogsState :=
  match logs.offline_attacks with
  | none => (0, logs)
  | some attacks =>
    if attacks.isEmpty then (0, logs)
    else
      ((attacks.filter (fun a => a.pending_upload && sendOk a)).length,
       ⟨some (attacks.filter (fun a => a.pending_upload && !(sendOk a))),
        logs.stored_attacks⟩)

/-- Failure of the axios report post: no response at all, or a response
with a status outside 2xx (axios' default validateStatus rejects these). -/
inductive SendError where
  | noResponse
  | httpStatus (code : Nat)
deriving Repr, DecidableEq

/-- Result of one reportAttack call as seen by its caller. -/
inductive ReportOutcome where
  | throttled
  | storedLocally
  | reported
  | failed (e : SendError)
deriving Repr, DecidableEq

/-- The configuration reportAttack consults: offline mode, the
STORE_THROTTLED_ATTACKS flag, REPORT_UNIQUE_TYPES_ONLY, and the
MAX_REPORTS_PER_IP cap (default 5). -/
structure ReportConfig where
  offlineMode : Bool
  storeThrottledAttacks : Bool
  uniqueTypesOnly : Bool
  maxReports : Nat
deriving Repr, DecidableEq

/-- reportAttack (src/services/api-service.js, lines 150-296): enhance
the observation; if throttled, still update the cache, optionally spool
with throttled=true, and return a throttled result; otherwise update
the cache and either spool (offline mode), return the response (send
ok), or spool with pending_upload=true and propagate the error (send
failed, any transport error or non-2xx status, 403 included). -/
def reportAttack (cfg : ReportConfig) (sendResult : Except SendError Unit)
    (cache : Option CacheEntry) (logs : LogsState) (now : Nat)
    (a : AttackData) : ReportOutcome × CacheEntry × LogsState :=
  let enhanced := enhanceAttackData a
  if shouldThrottleReport cfg.uniqueTypesOnly cfg.maxReports cache now enhanced.attack_type then
    (ReportOutcome.throttled,
     updateReportCache cache now enhanced.attack_type,
     if cfg.storeThrottledAttacks then storeAttackLocally logs enhanced true now else logs)
  else
    let cache2 := updateReportCache cache now enhanced.attack_type
    if cfg.offlineMode then
      (ReportOutcome.storedLocally, cache2, storeAttackLocally logs enhanced false now)
    else
      match sendResult with
      | .ok _ => (ReportOutcome.reported, cache2, logs)
      | .error err => (ReportOutcome.failed err, cache2, storeAttackLocally logs enhanced false now)

/-- SMTP session state fields used by the close handler
(src/modules/mail-honeypot.js, lines 80-90): commands received, RCPT TO
recipients, start time. -/
structure SMTPSession where
  commands : List String
  rcptTo : List String
  startTime : Nat
deriving Repr, DecidableEq

/-- The domain-capture scan of the regular expression of the SMTP relay
check (an at sign followed by one or more characters other than a
closing angle bracket), over the character list of a recipient. -/
def matchAtDomain : List Char → Option (List Char)
  | [] => none
  | '@' :: c :: rest =>
    if c = '>' then matchAtDomain (c :: rest)
    else some ((c :: rest).takeWhile (fun d => d ≠ '>'))
  | _ :: rest => matchAtDomain rest

/-- Domain extraction of the SMTP relay check
(src/modules/mail-honeypot.js, lines 261-266): the lowercased capture of
the domain pattern, or the empty string when it does not match. -/
def extractDomain (rcpt : String) : String :=
  match matchAtDomain rcpt.toList with
  | none => ""
  | some cs => String.mk (cs.map Char.toLower)

/-- The SMTP close handler (src/modules/mail-honeypot.js, lines
247-277): emits smtp_scan when the session lasted under 500 ms with at
most one command, and smtp_relay_attempt when more than 5 recipients
span more than 3 distinct domains. -/
def smtpCloseEvents (s : SMTPSession) (now : Nat) : List String :=
  (if now - s.startTime < 500 ∧ s.commands.length ≤ 1 then ["smtp_scan"] else [])
    ++
  (if 5 < s.rcptTo.length ∧ 3 < ((s.rcptTo.map extractDomain).dedup).length
   then ["smtp_relay_attempt"] else [])

/-- MySQL session state fields used by the close handler
(src/modules/mysql-honeypot.js, lines 38-47). -/
structure MySQLSession where
  authAttempts : Nat
  queries : List String
  startTime : Nat
deriving Repr, DecidableEq

/-- The MySQL close handler (src/modules/mysql-honeypot.js, lines
123-137): emits mysql_scan exactly when the session lasted under 500 ms
and had zero auth attempts. -/
def mysqlCloseEvents (s : MySQLSession) (now : Nat) : List String :=
  if now - s.startTime < 500 ∧ s.authAttempts = 0 then ["mysql_scan"] else []

/-- Outcome of one authentication attempt against a honeypot endpoint:
whether the credentials were accepted, and the delay in milliseconds
before the response is written. -/
structure AuthResult where
  accepted : Bool
  delayMs : Nat
deriving Repr, DecidableEq

/-- The bait user table of the SSH honeypot
(src/modules/ssh-honeypot.js, lines 151-158). -/
def sshUsers : List (String × String) :=
  [ ("root", "password123")
  , ("admin", "admin123")
  , ("user", "user123")
  , ("test", "test123")
  , ("ubuntu", "ubuntu")
  , ("pi", "raspberry") ]

/-- The SSH authentication decision (src/modules/ssh-honeypot.js, lines
289-301): accept exactly when the method is password, the username is
in the bait table, and the password matches; reject otherwise.  The
response is written immediately. -/
def sshAuthResult (method username password : String) : AuthResult :=
  match List.lookup username sshUsers with
  | some pw => ⟨method == "password" && password == pw, 0⟩
  | none => ⟨false, 0⟩

/-- The SMTP AUTH handler (src/modules/mail-honeypot.js, lines 164-179):
every AUTH command is rejected with code 535 after a 1000 ms delay,
whatever its payload. -/
def smtpAuthResult (_authCommand : String) : AuthResult := ⟨false, 1000⟩

/-- The POP3 PASS handler (src/modules/mail-honeypot.js, lines 318-333):
every credential pair is rejected after a 1000 ms delay. -/
def pop3AuthResult (_username _password : String) : AuthResult := ⟨false, 1000⟩

/-- The IMAP LOGIN handler (src/modules/mail-honeypot.js, lines
433-451): every credential pair is rejected after a 1000 ms delay. -/
def imapLoginAuthResult (_username _password : String) : AuthResult := ⟨false, 1000⟩

/-- The MySQL auth-packet handler (src/modules/mysql-honeypot.js, lines
61-89): every login is answered with error 1045 (access denied) after a
500 ms delay; the password is never even parsed. -/
def mysqlAuthResult (_username : String) : AuthResult := ⟨false, 500⟩

/-- The HTTP honeypot login handler (src/modules/http-honeypot.js,
lines 460-548): every credential pair is answered with status 401
immediately. -/
def httpLoginAuthResult (_username _password : String) : AuthResult := ⟨false, 0⟩

/-- Configuration consulted by performHeartbeat (src/index.js, lines
41-44): debug mode and HEARTBEAT_RETRY_COUNT. -/
structure HBConfig where
  debugMode : Bool
  heartbeatRetryCount : Nat
deriving Repr, DecidableEq

/-- The heartbeat bookkeeping state of src/index.js (lines 59-60):
consecutiveHeartbeatFailures, lastHeartbeatSuccess, plus the number of
debug-mode retry timers currently scheduled. -/
structure HBState where
  consecutiveFailures : Nat
  lastSuccess : Option Nat
  pendingRetries : Nat
deriving Repr, DecidableEq

/-- A completed heartbeat send: either a scheduled (startup or cron)
performHeartbeat send, or a debug-mode retry send, each with its
success flag (axios resolves exactly on 2xx) and completion time. -/
inductive HBEvent where
  | main (ok : Bool) (t : Nat)
  | retry (ok : Bool) (t : Nat)
deriving Repr, DecidableEq

/-- State transition of one completed heartbeat send, from
performHeartbeat (src/index.js, lines 63-133): a successful scheduled
send resets the failure counter and stamps lastSuccess; a failed
scheduled send increments the counter and, in debug mode while the
counter is within HEARTBEAT_RETRY_COUNT, schedules one retry; a
successful retry resets the counter and stamps lastSuccess; a failed
retry only logs - the counter is not touched (lines 113-117). -/
def hbStep (cfg : HBConfig) (s : HBState) : HBEvent → HBState
  | .main true t => ⟨0, some t, s.pendingRetries⟩
  | .main false _ =>
    let f := s.consecutiveFailures + 1
    ⟨f, s.lastSuccess,
     s.pendingRetries + (if cfg.debugMode ∧ f ≤ cfg.heartbeatRetryCount then 1 else 0)⟩
  | .retry true t => ⟨0, some t, s.pendingRetries - 1⟩
  | .retry false _ => ⟨s.consecutiveFailures, s.lastSuccess, s.pendingRetries - 1⟩

/-- Run a sequence of completed heartbeat sends. -/
def hbRun (cfg : HBConfig) (s : HBState) (events : List HBEvent) : HBState :=
  events.foldl (hbStep cfg) s

/-- A send trace is valid when every retry completion is backed by a
scheduled retry timer. -/
def hbValid (cfg : HBConfig) : HBState → List HBEvent → Bool
  | _, [] => true
  | s, e :: es =>
    (match e with
     | .retry _ _ => decide (0 < s.pendingRetries)
     | .main _ _ => true)
      && hbValid cfg (hbStep cfg s e) es

/-- Initial heartbeat state (src/index.js, lines 59-60). -/
def hbInit : HBState := ⟨0, none, 0⟩

/-- The observation event of spec scenario S1: an HTTP request detected
as SQL injection, reported by the HTTP module under the internal kind
sql_injection. -/
def sqlInjectionObservation : AttackData :=
  ⟨"1.2.3.4", some "sql_injection", "SQL injection attempt in HTTP request",
   some (.str "q= OR 1=1--"), none⟩

/-- A spool entry persisted before a process restart. -/
def preRestartEntry : SpoolEntry :=
  ⟨enhanceAttackData ⟨"9.9.9.9", some "ssh_bruteforce", "pre-restart attack", none, none⟩,
   false, 0, true⟩

/-- A value looked up in an association list is one of its values. -/
theorem lookup_mem_snd {α β : Type} [BEq α] :
    ∀ {l : List (α × β)} {k : α} {v : β}, List.lookup k l = some v → v ∈ l.map Prod.snd := by
  intro l
  induction l with
  | nil => intro k v h; simp [List.lookup] at h
  | cons p rest ih =>
    intro k v h
    obtain ⟨a, b⟩ := p
    by_cases hk : k == a
    · simp [List.lookup, hk] at h
      simp [h]
    · simp [List.lookup, hk] at h
      exact List.mem_cons_of_mem _ (ih h)

/-- Every result of the ATTACK_TYPE_MAPPING lookup (fallback included)
is one of the uppercase pattern codes. -/
theorem lookupMapping_mem (s : String) : lookupMapping s ∈ patternCodes := by
  unfold lookupMapping
  cases h : List.lookup s attackTypeMapping with
  | none => simp; decide
  | some v =>
    simp
    have hsub : ∀ x ∈ attackTypeMapping.map Prod.snd, x ∈ patternCodes := by decide
    exact hsub v (lookup_mem_snd h)

/-- mapAttackType always returns one of the uppercase pattern codes,
whatever the internal kind and evidence. -/
theorem mapAttackType_mem (it : Option String) (ev : Option JsVal) :
    mapAttackType it ev ∈ patternCodes := by
  unfold mapAttackType
  dsimp only
  split_ifs with h1 h2 h3 h4
  · decide
  · decide
  · decide
  · exact lookupMapping_mem _
  · exact lookupMapping_mem _

/-- Throttle-bound induction: starting from any live cache entry, the
admissions over an in-window event sequence are bounded by the number of
kinds novel to the entry plus the report budget left in the entry. -/
theorem admittedCount_le_aux (uo : Bool) (mr : Nat) :
    ∀ (evs : List (Nat × String)) (e : CacheEntry),
      (∀ ev ∈ evs, ev.1 - e.timestamp ≤ IP_CACHE_TTL) →
      admittedCount uo mr (some e) evs ≤
        newKindCount e.attack_types evs + (mr - e.reported_count) := by
  intro evs
  induction evs with
  | nil => intro e _; simp [admittedCount, newKindCount]
  | cons ev rest ih =>
    intro e hw
    obtain ⟨t, k⟩ := ev
    have ht : t - e.timestamp ≤ IP_CACHE_TTL := hw (t, k) (List.mem_cons_self _ _)
    have hne : ¬ IP_CACHE_TTL < t - e.timestamp := Nat.not_lt.mpr ht
    have hwrest : ∀ ev ∈ rest, ev.1 - e.timestamp ≤ IP_CACHE_TTL :=
      fun ev hm => hw ev (List.mem_cons_of_mem _ hm)
    by_cases hmem : k ∈ e.attack_types
    · have hc : e.attack_types.contains k = true := by simpa using hmem
      have hupd : updateReportCache (some e) t k =
          ⟨e.timestamp, e.attack_types, e.reported_count + 1⟩ := by
        simp [updateReportCache, hne, hc, hmem]
      have IH : admittedCount uo mr
            (some ⟨e.timestamp, e.attack_types, e.reported_count + 1⟩) rest ≤
          newKindCount e.attack_types rest + (mr - (e.reported_count + 1)) := by
        simpa using ih ⟨e.timestamp, e.attack_types, e.reported_count + 1⟩ hwrest
      have hthrform : shouldThrottleReport uo mr (some e) t k =
          (uo || decide (mr ≤ e.reported_count)) := by
        simp [shouldThrottleReport, hne, REPORT_TYPES_THROTTLE, hc, hmem]
      have hstep : admittedCount uo mr (some e) ((t, k) :: rest) =
          (if !(uo || decide (mr ≤ e.reported_count)) then 1 else 0) +
            admittedCount uo mr
              (some ⟨e.timestamp, e.attack_types, e.reported_count + 1⟩) rest := by
        simp only [admittedCount, reportThrottleStep, hthrform, hupd]
      have hnk : newKindCount e.attack_types ((t, k) :: rest) =
          newKindCount e.attack_types rest := by
        simp [newKindCount, hc, hmem]
      by_cases hb : (uo || decide (mr ≤ e.reported_count)) = true
      · have hif : (if !(uo || decide (mr ≤ e.reported_count)) then 1 else 0) = 0 := by
          simp [hb]
        omega
      · have hb2 : (uo || decide (mr ≤ e.reported_count)) = false :=
          Bool.eq_false_iff.mpr hb
        have hlt : e.reported_count < mr := by
          rcases Bool.or_eq_false_iff.mp hb2 with ⟨_, hd⟩
          have := of_decide_eq_false hd
          omega
        have hif : (if !(uo || decide (mr ≤ e.reported_count)) then 1 else 0) = 1 := by
          simp [hb2]
        omega
    · have hc : e.attack_types.contains k = false := by simpa using hmem
      have hthr : shouldThrottleReport uo mr (some e) t k = false := by
        simp [shouldThrottleReport, hne, REPORT_TYPES_THROTTLE, hc, hmem]
      have hupd : updateReportCache (some e) t k =
          ⟨e.timestamp, k :: e.attack_types, e.reported_count + 1⟩ := by
        simp [updateReportCache, hne, hc, hmem]
      have IH : admittedCount uo mr
            (some ⟨e.timestamp, k :: e.attack_types, e.reported_count + 1⟩) rest ≤
          newKindCount (k :: e.attack_types) rest + (mr - (e.reported_count + 1)) := by
        simpa using ih ⟨e.timestamp, k :: e.attack_types, e.reported_count + 1⟩ hwrest
      have hstep : admittedCount uo mr (some e) ((t, k) :: rest) =
          1 + admittedCount uo mr
              (some ⟨e.timestamp, k :: e.attack_types, e.reported_count + 1⟩) rest := by
        simp only [admittedCount, reportThrottleStep, hthr, hupd, Bool.not_false, if_pos]
      have hnk : newKindCount e.attack_types ((t, k) :: rest) =
          1 + newKindCount (k :: e.attack_types) rest := by
        simp [newKindCount, hc, hmem]
      omega

/-- C1, counterexample: the enriched record produced for an HTTP request
detected as SQL injection carries attack_type "SQLI_ATTEMPT" - the
uppercase pattern code - which is not a member of the lowercase taxonomy
of spec section 4.2 and in particular is not the claimed "sqli_attempt". -/
theorem classify_reports_uppercase_not_spec_kind :
    (enhanceAttackData sqlInjectionObservation).attack_type = "SQLI_ATTEMPT" ∧
    (enhanceAttackData sqlInjectionObservation).attack_type ∉ specCanonicalKinds ∧
    (enhanceAttackData sqlInjectionObservation).attack_type ≠ "sqli_attempt" := by
  refine ⟨rfl, by decide, by decide⟩

/-- C1, amended claim: for every observation event, the attack_type of
the enriched record is drawn from the closed set of uppercase pattern
codes (the keys of ATTACK_PATTERNS, in bijection with the section-4.2
kinds); in particular an HTTP request detected as SQL injection is
reported with attack_type "SQLI_ATTEMPT", category "injection" and
severity at least 4. -/
theorem classify_closed_uppercase_taxonomy :
    (∀ a : AttackData, (enhanceAttackData a).attack_type ∈ patternCodes) ∧
    (enhanceAttackData sqlInjectionObservation).attack_type = "SQLI_ATTEMPT" ∧
    (enhanceAttackData sqlInjectionObservation).category = "injection" ∧
    4 ≤ (enhanceAttackData sqlInjectionObservation).severity := by
  refine ⟨fun a => ?_, rfl, rfl, by decide⟩
  show mapAttackType a.attack_type a.evidence ∈ patternCodes
  exact mapAttackType_mem a.attack_type a.evidence

/-- C2, counterexample: the SSH honeypot accepts the credential pair
root with password123 offered over the password method (with no delay),
so it is false that every username/password pair is rejected. -/
theorem ssh_accepts_bait_credentials :
    sshAuthResult "password" "root" "password123" = ⟨true, 0⟩ := by
  rfl

/-- C2, amended claim: the SMTP, POP3 and IMAP LOGIN endpoints reject
every credential after a 1000 ms delay, the MySQL endpoint after a
500 ms delay, and the HTTP login immediately; the SSH endpoint responds
immediately and accepts a pair exactly when the method is password and
the pair is in its six-entry bait user table. -/
theorem auth_endpoints_behavior :
    (∀ c : String, smtpAuthResult c = ⟨false, 1000⟩) ∧
    (∀ u p : String, pop3AuthResult u p = ⟨false, 1000⟩) ∧
    (∀ u p : String, imapLoginAuthResult u p = ⟨false, 1000⟩) ∧
    (∀ u : String, mysqlAuthResult u = ⟨false, 500⟩) ∧
    (∀ u p : String, httpLoginAuthResult u p = ⟨false, 0⟩) ∧
    (∀ m u p : String, (sshAuthResult m u p).accepted = true ↔
      (m = "password" ∧ List.lookup u sshUsers = some p)) ∧
    (∀ m u p : String, (sshAuthResult m u p).delayMs = 0) := by
  refine ⟨fun _ => rfl, fun _ _ => rfl, fun _ _ => rfl, fun _ => rfl, fun _ _ => rfl,
    ?_, ?_⟩
  · intro m u p
    cases h : List.lookup u sshUsers with
    | none => simp [sshAuthResult, h]
    | some pw =>
      simp [sshAuthResult, h, Bool.and_eq_true, beq_iff_eq]
      intro _
      constructor
      · intro h2; exact h2.symm
      · intro h2; exact h2.symm
  · intro m u p
    cases h : List.lookup u sshUsers with
    | none => simp [sshAuthResult, h]
    | some pw => simp [sshAuthResult, h]

/-- C3, counterexample: six events from one source bearing six distinct
canonical kinds, all within one TTL window, are all six admitted, which
exceeds the MAX_REPORTS_PER_IP cap of 5 (a kind not yet in the entry's
type set never throttles, so the cap does not hold regardless of
the kinds). -/
theorem throttle_cap_exceeded_by_novel_kinds :
    admittedCount false 5 none
      [(0, "a"), (0, "b"), (0, "c"), (0, "d"), (0, "e"), (0, "f")] = 6 ∧ 5 < 6 := by
  constructor
  · rfl
  · decide

/-- C3, amended claim: within a single TTL window measured from the
throttle entry's creation, the number of admitted events is at most the
number of distinct canonical kinds occurring in the window plus
MAX_REPORTS_PER_IP minus one; the plain MAX_REPORTS_PER_IP cap holds
only when all events bear one kind, because an event bearing a novel
kind is always admitted. -/
theorem throttle_admitted_bound (uniqueTypesOnly : Bool) (maxReports : Nat)
    (t0 : Nat) (k0 : String) (rest : List (Nat × String))
    (hwindow : ∀ ev ∈ rest, ev.1 - t0 ≤ IP_CACHE_TTL) :
    admittedCount uniqueTypesOnly maxReports none ((t0, k0) :: rest) ≤
      newKindCount [] ((t0, k0) :: rest) + (maxReports - 1) := by
  have hstep : admittedCount uniqueTypesOnly maxReports none ((t0, k0) :: rest) =
      1 + admittedCount uniqueTypesOnly maxReports (some ⟨t0, [k0], 1⟩) rest := by
    simp only [admittedCount, reportThrottleStep, shouldThrottleReport, updateReportCache,
      Bool.not_false, if_pos]
  have hnk : newKindCount [] ((t0, k0) :: rest) = 1 + newKindCount [k0] rest := by
    simp [newKindCount]
  have IH : admittedCount uniqueTypesOnly maxReports (some ⟨t0, [k0], 1⟩) rest ≤
      newKindCount [k0] rest + (maxReports - 1) := by
    simpa using admittedCount_le_aux uniqueTypesOnly maxReports rest ⟨t0, [k0], 1⟩
      (by simpa using hwindow)
  omega

/-- C3, witness: the bound instantiated at three same-kind events inside
one window with the default cap of 5. -/
theorem throttle_admitted_bound_witness :
    (∀ ev ∈ [((100 : Nat), "a"), (200, "a")], ev.1 - 0 ≤ IP_CACHE_TTL) ∧
    admittedCount false 5 none [(0, "a"), (100, "a"), (200, "a")] ≤
      newKindCount [] [(0, "a"), (100, "a"), (200, "a")] + (5 - 1) :=
  ⟨by decide, throttle_admitted_bound false 5 0 "a" [(100, "a"), (200, "a")] (by decide)⟩

/-- C4, code bug: clearStoredAttacks, run at module start to prevent
resending old attacks after a container restart, deletes
logs/stored_attacks.json - a file nothing ever writes - and leaves the
actual spool logs/offline_attacks.json untouched, so a pending entry
persisted before the restart survives and the next replay pass uploads
it. -/
theorem clear_on_start_misses_offline_spool :
    (∀ logs : LogsState, (clearStoredAttacks logs).offline_attacks = logs.offline_attacks) ∧
    (clearStoredAttacks ⟨some [preRestartEntry], none⟩).offline_attacks =
      some [preRestartEntry] ∧
    (uploadStoredAttacks (fun _ => true)
      (clearStoredAttacks ⟨some [preRestartEntry], none⟩)).1 = 1 :=
  ⟨fun _ => rfl, rfl, rfl⟩

/-- C5, counterexample: a scalar string evidence value whose text is a
JSON array of numbers is not wrapped as a singleton - the report body
receives the parsed array, whose elements are not strings. -/
theorem evidence_json_array_string_not_wrapped :
    normalizeEvidence parseArrOneTwo (some (.str "[1,2]")) =
      some (.arr [.num 1, .num 2]) ∧
    evidenceIsStringArray (normalizeEvidence parseArrOneTwo (some (.str "[1,2]"))) = false :=
  ⟨rfl, rfl⟩

/-- C5, amended claim: the evidence sent in the request body (by the
direct sender and by the offline replay pass, whose formatting blocks
are identical) is an array of strings whenever the original evidence is
a string that does not JSON-parse to an array, an array of strings, or
a truthy non-string non-array value; a string parsing to a JSON array
is replaced by the parsed array, whose elements need not be strings. -/
theorem evidence_normalized_string_array (parseFn : JsonParseFn) (v : JsVal)
    (h : match v with
         | .str s => ∀ es, parseFn s ≠ some (.arr es)
         | .arr es => es.all isStrVal = true
         | w => jsTruthy w = true) :
    evidenceIsStringArray (normalizeEvidence parseFn (some v)) = true := by
  cases v with
  | str s =>
    simp only [normalizeEvidence]
    cases hp : parseFn s with
    | none => simp [evidenceIsStringArray, isStrVal]
    | some w =>
      cases w with
      | arr es => exact absurd hp (h es)
      | null => simp [evidenceIsStringArray, isStrVal]
      | bool b => simp [evidenceIsStringArray, isStrVal]
      | num n => simp [evidenceIsStringArray, isStrVal]
      | str s2 => simp [evidenceIsStringArray, isStrVal]
      | obj fs => simp [evidenceIsStringArray, isStrVal]
  | arr es =>
    simpa [normalizeEvidence, evidenceIsStringArray] using h
  | null => simp [jsTruthy] at h
  | bool b =>
    have hb : b = true := by simpa [jsTruthy] using h
    subst hb
    simp [normalizeEvidence, jsTruthy, evidenceIsStringArray, isStrVal]
  | num n =>
    have hn : ¬ n = 0 := by simpa [jsTruthy] using h
    simp [normalizeEvidence, jsTruthy, hn, evidenceIsStringArray, isStrVal]
  | obj fs =>
    simp [normalizeEvidence, jsTruthy, evidenceIsStringArray, isStrVal]

/-- C5, witness: a numeric evidence value (truthy, not a string, not an
array) normalizes to a string array. -/
theorem evidence_normalized_string_array_witness :
    jsTruthy (.num 5) = true ∧
    evidenceIsStringArray (normalizeEvidence (fun _ => none) (some (.num 5))) = true :=
  ⟨rfl, evidence_normalized_string_array (fun _ => none) (.num 5) rfl⟩

/-- C6, counterexample: a MySQL session closed after 100 ms with exactly
one auth attempt emits no mysql_scan event, although its duration is
under 500 ms and its count is at most 1 as the claim requires - the
MySQL close handler demands zero auth attempts, not at most one. -/
theorem mysql_scan_not_emitted_one_auth_attempt :
    mysqlCloseEvents ⟨1, [], 0⟩ 100 = [] ∧ (100 : Nat) - 0 < 500 ∧ (1 : Nat) ≤ 1 := by
  refine ⟨?_, by decide, by decide⟩
  simp [mysqlCloseEvents]

/-- C6, amended claim: an SMTP session closing under 500 ms with at most
one command emits smtp_scan; a MySQL session closing under 500 ms emits
mysql_scan exactly when it had zero auth attempts - a session with any
auth attempt emits none. -/
theorem scan_rules_smtp_mysql :
    (∀ (s : SMTPSession) (now : Nat),
      now - s.startTime < 500 → s.commands.length ≤ 1 →
      "smtp_scan" ∈ smtpCloseEvents s now) ∧
    (∀ (s : MySQLSession) (now : Nat),
      now - s.startTime < 500 → s.authAttempts = 0 →
      mysqlCloseEvents s now = ["mysql_scan"]) ∧
    (∀ (s : MySQLSession) (now : Nat),
      s.authAttempts ≠ 0 → mysqlCloseEvents s now = []) := by
  refine ⟨?_, ?_, ?_⟩
  · intro s now h1 h2
    simp [smtpCloseEvents, h1, h2]
  · intro s now h1 h2
    simp [mysqlCloseEvents, h1, h2]
  · intro s now h1
    simp [mysqlCloseEvents, h1]

/-- C6, witness: the scan rules instantiated at a one-command 100 ms
SMTP session and a zero-attempt 100 ms MySQL session. -/
theorem scan_rules_smtp_mysql_witness :
    ((100 : Nat) - 0 < 500 ∧ ([("EHLO x" : String)].length ≤ 1) ∧
      "smtp_scan" ∈ smtpCloseEvents ⟨["EHLO x"], [], 0⟩ 100) ∧
    (mysqlCloseEvents ⟨0, [], 0⟩ 100 = ["mysql_scan"]) :=
  ⟨⟨by decide, by decide,
    scan_rules_smtp_mysql.1 ⟨["EHLO x"], [], 0⟩ 100 (by decide) (by decide)⟩,
   scan_rules_smtp_mysql.2.1 ⟨0, [], 0⟩ 100 (by decide) rfl⟩

/-- C7: an event bearing a kind not yet in the source's throttle-entry
type set is never throttled - when the entry is absent, when it has
expired, and when the kind is novel to a live entry - regardless of the
entry's report count and of the REPORT_UNIQUE_TYPES_ONLY setting. -/
theorem novel_kind_always_admitted :
    (∀ (uo : Bool) (mr now : Nat) (k : String),
      shouldThrottleReport uo mr none now k = false) ∧
    (∀ (uo : Bool) (mr : Nat) (e : CacheEntry) (now : Nat) (k : String),
      IP_CACHE_TTL < now - e.timestamp →
      shouldThrottleReport uo mr (some e) now k = false) ∧
    (∀ (uo : Bool) (mr : Nat) (e : CacheEntry) (now : Nat) (k : String),
      k ∉ e.attack_types →
      shouldThrottleReport uo mr (some e) now k = false) := by
  refine ⟨fun _ _ _ _ => rfl, ?_, ?_⟩
  · intro uo mr e now k hexp
    simp [shouldThrottleReport, hexp]
  · intro uo mr e now k hnm
    simp [shouldThrottleReport, REPORT_TYPES_THROTTLE, hnm]

/-- C7, witness: a novel kind is admitted even with
REPORT_UNIQUE_TYPES_ONLY set and a report count far beyond the cap. -/
theorem novel_kind_always_admitted_witness :
    ("SQLI_ATTEMPT" ∉ (["PORT_SCAN"] : List String)) ∧
    shouldThrottleReport true 5 (some ⟨0, ["PORT_SCAN"], 99⟩) 100 "SQLI_ATTEMPT" = false :=
  ⟨by decide, novel_kind_always_admitted.2.2 true 5 ⟨0, ["PORT_SCAN"], 99⟩ 100 "SQLI_ATTEMPT"
    (by decide)⟩

/-- C8: when the direct send fails with any transport error or non-2xx
status (403 included - the error value is universally quantified, so 403
is treated exactly like every other failure), reportAttack appends the
enriched record to the offline spool with pending_upload true and
returns the propagated error. -/
theorem report_failure_spools_and_propagates (cfg : ReportConfig) (err : SendError)
    (cache : Option CacheEntry) (logs : LogsState) (now : Nat) (a : AttackData)
    (hoff : cfg.offlineMode = false)
    (hthr : shouldThrottleReport cfg.uniqueTypesOnly cfg.maxReports cache now
      (enhanceAttackData a).attack_type = false) :
    reportAttack cfg (.error err) cache logs now a =
      (ReportOutcome.failed err,
       updateReportCache cache now (enhanceAttackData a).attack_type,
       ⟨some ((logs.offline_attacks.getD []) ++ [⟨enhanceAttackData a, false, now, true⟩]),
        logs.stored_attacks⟩) := by
  simp [reportAttack, hthr, hoff, storeAttackLocally]

/-- C8, witness: a 403 response on the S1 observation spools the record
and propagates the error. -/
theorem report_failure_spools_and_propagates_witness :
    (⟨false, false, false, 5⟩ : ReportConfig).offlineMode = false ∧
    reportAttack ⟨false, false, false, 5⟩ (.error (.httpStatus 403)) none ⟨none, none⟩ 0
        sqlInjectionObservation =
      (ReportOutcome.failed (.httpStatus 403),
       updateReportCache none 0 (enhanceAttackData sqlInjectionObservation).attack_type,
       ⟨some [⟨enhanceAttackData sqlInjectionObservation, false, 0, true⟩], none⟩) :=
  ⟨rfl, report_failure_spools_and_propagates ⟨false, false, false, 5⟩ (.httpStatus 403)
    none ⟨none, none⟩ 0 sqlInjectionObservation rfl rfl⟩

/-- C9, counterexample: with debug mode on, the valid send trace
scheduled-failure, scheduled-success, retry-failure leaves
consecutive_failures at zero although the last completed send failed -
the retry failure handler does not touch the counter - so it is false
that after every completed send the counter is zero exactly when that
send got a 2xx. -/
theorem heartbeat_iff_fails_on_retry_failure :
    hbValid ⟨true, 3⟩ hbInit [.main false 1, .main true 2, .retry false 3] = true ∧
    (hbRun ⟨true, 3⟩ hbInit [.main false 1, .main true 2, .retry false 3]).consecutiveFailures
      = 0 ∧
    (hbRun ⟨true, 3⟩ hbInit [.main false 1, .main true 2, .retry false 3]).lastSuccess
      = some 2 := by
  refine ⟨?_, rfl, rfl⟩
  simp [hbValid, hbStep, hbInit]

/-- C9, amended claim: after any finite prefix of sends followed by one
successful scheduled send, consecutive_failures is zero and last_success
is the new success time; and after every completed scheduled
(non-retry) send, consecutive_failures is zero exactly when that send
succeeded - the debug-mode retry resets the counter on success but
leaves it unchanged on failure. -/
theorem heartbeat_recovery_and_scheduled_iff :
    (∀ (cfg : HBConfig) (s : HBState) (pre : List HBEvent) (t : Nat),
      (hbRun cfg s (pre ++ [.main true t])).consecutiveFailures = 0 ∧
      (hbRun cfg s (pre ++ [.main true t])).lastSuccess = some t) ∧
    (∀ (cfg : HBConfig) (s : HBState) (t : Nat),
      (hbStep cfg s (.main true t)).consecutiveFailures = 0) ∧
    (∀ (cfg : HBConfig) (s : HBState) (t : Nat),
      (hbStep cfg s (.main false t)).consecutiveFailures ≠ 0) := by
  refine ⟨?_, fun _ _ _ => rfl, ?_⟩
  · intro cfg s pre t
    have : hbRun cfg s (pre ++ [.main true t]) = hbStep cfg (hbRun cfg s pre) (.main true t) := by
      simp [hbRun, List.foldl_append]
    rw [this]
    exact ⟨rfl, rfl⟩
  · intro cfg s t
    simp [hbStep]

/-- C10: every reportAttack call updates the cache through
updateReportCache whether the call is admitted or suppressed, and on an
unexpired entry that update increments reported_count, puts the event's
kind into the type set, and keeps the window timestamp - so suppressed
events consume the report budget exactly like admitted ones. -/
theorem suppressed_calls_consume_budget :
    (∀ (cfg : ReportConfig) (sr : Except SendError Unit) (cache : Option CacheEntry)
       (logs : LogsState) (now : Nat) (a : AttackData),
      (reportAttack cfg sr cache logs now a).2.1 =
        updateReportCache cache now (enhanceAttackData a).attack_type) ∧
    (∀ (e : CacheEntry) (now : Nat) (k : String),
      now - e.timestamp ≤ IP_CACHE_TTL →
      (updateReportCache (some e) now k).reported_count = e.reported_count + 1 ∧
      (updateReportCache (some e) now k).attack_types.contains k = true ∧
      (updateReportCache (some e) now k).timestamp = e.timestamp) := by
  constructor
  · intro cfg sr cache logs now a
    by_cases hthr : shouldThrottleReport cfg.uniqueTypesOnly cfg.maxReports cache now
        (enhanceAttackData a).attack_type
    · simp [reportAttack, hthr]
    · by_cases hoff : cfg.offlineMode
      · simp [reportAttack, hthr, hoff]
      · cases sr with
        | ok u => simp [reportAttack, hthr, hoff]
        | error err => simp [reportAttack, hthr, hoff]
  · intro e now k h
    have hne : ¬ IP_CACHE_TTL < now - e.timestamp := Nat.not_lt.mpr h
    by_cases hmem : k ∈ e.attack_types
    · simp [updateReportCache, hne, hmem]
    · simp [updateReportCache, hne, hmem]

/-- C10, witness: a call on a live two-report entry with a new kind
increments the count to three. -/
theorem suppressed_calls_consume_budget_witness :
    ((10 : Nat) - 0 ≤ IP_CACHE_TTL) ∧
    (updateReportCache (some ⟨0, ["a"], 2⟩) 10 "b").reported_count = 2 + 1 :=
  ⟨by decide, (suppressed_calls_consume_budget.2 ⟨0, ["a"], 2⟩ 10 "b" (by decide)).1⟩
